import Mathlib

/-!
Verification of the error-reporting and diagnostic-emission core of
openGauss (src/common/backend/utils/error/elog.cpp) against its
natural-language specification.

The development shallowly embeds the code paths that the claims are
about: the severity constants and the LOG-aware server-log comparison
(is_log_level_output), the opening of a reporting cycle (errstart),
the re-throw path with no registered recovery point (pg_re_throw),
the sink fan-out gates (EmitErrorReport / send_message_to_frontend),
the save/restore discipline of the redaction scanner on a parse error,
and the full token-driven masking loop of mask_Password_internal.

Machine integers are modelled as Int/Nat; C strings are lists of
characters; statically-unknown collaborators (the SQL tokenizer, the
per-module gate is_errmodule_enable, the statement-retry predicate)
are parameters of the embedding.
-/

/-! ### Severity levels

Numeric severity constants from the elog header (the header itself is
outside the excerpt; the values below are the standard PostgreSQL
levels the excerpt compares against, DEBUG5 = 10 .. PANIC = 22). -/

def DEBUG5 : Int := 10
def DEBUG4 : Int := 11
def DEBUG3 : Int := 12
def DEBUG2 : Int := 13
def DEBUG1 : Int := 14
def LOG : Int := 15
def COMMERROR : Int := 16
def INFO : Int := 17
def NOTICE : Int := 18
def WARNING : Int := 19
def PGERROR : Int := 20
def FATAL : Int := 21
def PANIC : Int := 22

/-- Modelled from the spec: VERBOSE is a pseudo-level that is normalized
to INFO before emission but forces client visibility.  Its numeric value
is not in the excerpt; the emission code (errfinish would abort for a
level at or above PANIC, and the escalation block at errstart
elog.cpp:218 never fires for it) forces it below ERROR, and it is
distinct from the ordered DEBUG5..PANIC levels. -/
def VERBOSEMESSAGE : Int := 9

/-! ### Default SQLSTATE codes (errcodes header), via MAKE_SQLSTATE -/

def PGSIXBIT (c : Char) : Int := (((c.toNat : Int) - ('0'.toNat : Int)) % 64 + 64) % 64

def MAKE_SQLSTATE (c1 c2 c3 c4 c5 : Char) : Int :=
  PGSIXBIT c1 + PGSIXBIT c2 * 64 + PGSIXBIT c3 * 4096 +
    PGSIXBIT c4 * 262144 + PGSIXBIT c5 * 16777216

def ERRCODE_SUCCESSFUL_COMPLETION : Int := MAKE_SQLSTATE '0' '0' '0' '0' '0'

def ERRCODE_WARNING : Int := MAKE_SQLSTATE '0' '1' '0' '0' '0'

def ERRCODE_WRONG_OBJECT_TYPE : Int := MAKE_SQLSTATE '4' '2' '8' '0' '9'

/-- Modelled from the spec: the default module tag of a fresh record is
the "unknown" sentinel MOD_MAX (elog.cpp:430); its numeric value is in
the be_module header, outside the excerpt.  Only its identity matters
here. -/
def MOD_MAX : Nat := 0

/-- Modelled from the spec: the error stack is a small bounded sequence
of records, fixed capacity (ERRORDATA_STACK_SIZE); the constant lives in
the elog header outside the excerpt, the spec gives 20. -/
def ERRORDATA_STACK_SIZE : Nat := 20

/-! ### is_log_level_output (elog.cpp:3501) -/

/-- is_log_level_output: is elevel logically at least log_min_level for
server-log purposes, with LOG and COMMERROR sorting between ERROR and
FATAL instead of by numeric value (elog.cpp:3501-3513). -/
def is_log_level_output (elevel log_min_level : Int) : Bool :=
  if elevel = LOG ∨ elevel = COMMERROR then
    if log_min_level = LOG ∨ log_min_level ≤ PGERROR then true else false
  else if elevel ≥ log_min_level then true
  else false

/-! ### The state and configuration read by errstart -/

/-- Destination of client output (whereToSendOutput). -/
inductive Dest where
  | none
  | debug
  | remote
deriving DecidableEq, Repr

/-- The per-record fields of one error-stack frame that the claims are
about (a projection of struct ErrorData). -/
structure Frame where
  elevel : Int
  verbose : Bool
  output_to_server : Bool
  output_to_client : Bool
  handle_in_client : Bool
  sqlerrcode : Int
  saved_errno : Int
  mod_id : Nat
deriving DecidableEq, Repr

/-- The per-thread mutable engine state touched by errstart
(t_thrd.log_cxt and friends).  The frame list holds the error stack,
top of the stack first, so its length is errordata_stack_depth + 1. -/
structure LogState where
  frames : List Frame
  recursionDepth : Int
  contextStack : List Nat
  debugQuery : Option String
deriving DecidableEq, Repr

/-- The configuration and ambient process state read (not written) by
one call of errstart. -/
structure ElogCfg where
  CritSectionCount : Nat
  hasExceptionStack : Bool
  proc_exit_inprogress : Bool
  ExitOnAnyError : Bool
  amPostmasterProcess : Bool
  amGracefulExitProcess : Bool
  test_err_type : Int
  IsPostmasterEnvironment : Bool
  log_min_messages : Int
  client_min_messages : Int
  whereToSendOutput : Dest
  ClientAuthInProgress : Bool
  streamThread : Bool
  isPgxcCoordinator : Bool
  amWLMProcess : Bool
  errorContextAvailable : Bool
  saved_errno : Int
deriving DecidableEq, Repr

/-- Server-log routing of a level under the current configuration;
shared by errstart (elog.cpp:282-286) and pg_re_throw (elog.cpp:1722-1725),
which the source keeps in sync by hand. -/
def serverLogRoute (cfg : ElogCfg) (elevel : Int) : Bool :=
  if cfg.IsPostmasterEnvironment then is_log_level_output elevel cfg.log_min_messages
  else decide (elevel ≥ cfg.log_min_messages)

/-! ### errstart (elog.cpp:201-435) -/

/-- The possible outcomes of errstart: the two hard-crash paths, the
injected recursive report of the test hook (elog.cpp:254-260), or a
normal return carrying the boolean result and the updated state. -/
inductive ErrstartOutcome where
  | crashNoContext
  | stackOverflowAbort
  | recursiveReport
  | ret (ok : Bool) (st : LogState)
deriving DecidableEq, Repr

/-- The promotion block of errstart (elog.cpp:218-273): critical-section
escalation to PANIC, the ERROR-to-FATAL/PANIC promotions, the
test_err_type hook (returns none when it diverts into a nested report),
and the walk over the pending stack frames taking the maximum severity.
None of it applies below ERROR. -/
def errstartPromote (cfg : ElogCfg) (st : LogState) (elevel : Int) : Option Int :=
  if elevel ≥ PGERROR then
    let eA := if cfg.CritSectionCount > 0 then PANIC else elevel
    if eA = PGERROR ∧ cfg.test_err_type ≥ 3 then none
    else
      let eB :=
        if eA = PGERROR then
          let e1 := if ¬cfg.hasExceptionStack ∨ cfg.proc_exit_inprogress then FATAL else eA
          if cfg.ExitOnAnyError ∧ ¬cfg.amPostmasterProcess then
            if cfg.amGracefulExitProcess then FATAL else PANIC
          else e1
        else eA
      some (st.frames.foldl (fun m f => max m f.elevel) eB)
  else some elevel

/-- The routing decisions of errstart and the two severity adjustments
entangled with them: output_to_server, output_to_client, the level e2
the frame will record, and the verbose flag. -/
structure Routing where
  os : Bool
  oc : Bool
  e2 : Int
  vb : Bool
deriving DecidableEq, Repr

/-- The routing block of errstart (elog.cpp:282-323): server-log
routing, client routing with the pre-authentication and forced-INFO
rules, the stream-thread NOTICE rule, the VERBOSE pseudo-level and its
coordinator normalization to INFO, and the WLM-process client
suppression. -/
def errstartRouting (cfg : ElogCfg) (e : Int) : Routing :=
  -- server-log routing (elog.cpp:282-286)
  let output_to_server := serverLogRoute cfg e
  -- client routing (elog.cpp:289-300)
  let output_to_client0 :=
    if cfg.whereToSendOutput = Dest.remote ∧ e ≠ COMMERROR then
      if cfg.ClientAuthInProgress then decide (e ≥ PGERROR)
      else decide (e ≥ cfg.client_min_messages) || decide (e = INFO)
    else false
  -- NOTICE in a stream thread always goes to the client (elog.cpp:303-304)
  let output_to_client1 :=
    if cfg.streamThread ∧ e = NOTICE then true else output_to_client0
  -- the VERBOSE pseudo-level (elog.cpp:311-318)
  let vb := e = VERBOSEMESSAGE
  let output_to_client2 := if vb then true else output_to_client1
  let e2 := if vb ∧ cfg.isPgxcCoordinator then INFO else e
  -- WLM processes never talk to a client at ERROR and above (elog.cpp:320-323)
  let output_to_client := if cfg.amWLMProcess ∧ e2 ≥ PGERROR then false else output_to_client2
  { os := output_to_server, oc := output_to_client, e2 := e2, vb := vb }

/-- Default errcode selection by level (elog.cpp:419-425). -/
def defaultSqlErrCode (e : Int) : Int :=
  if e ≥ PGERROR then ERRCODE_WRONG_OBJECT_TYPE
  else if e = WARNING then ERRCODE_WARNING
  else ERRCODE_SUCCESSFUL_COMPLETION

/-- Initialization of a fresh error frame (elog.cpp:396-431): the routed
flags, the recorded level, the default errcode for it, the saved OS
error number and the default module tag. -/
def errstartNewFrame (cfg : ElogCfg) (r : Routing) : Frame :=
  { elevel := r.e2
    verbose := r.vb
    output_to_server := r.os
    output_to_client := r.oc
    handle_in_client := false
    sqlerrcode := defaultSqlErrCode r.e2
    saved_errno := cfg.saved_errno
    mod_id := MOD_MAX }

/-- The recursion bookkeeping of errstart (elog.cpp:363-381): the escape
hatch resets the construction region (not data we track), and above the
trouble threshold also the context-callback chain and the captured
statement text.  The recursion counter itself is re-decremented before
errstart returns, so its net value is unchanged. -/
def errstartRecursionAdjust (st : LogState) (e2 : Int) : LogState :=
  if st.recursionDepth > 0 ∧ e2 ≥ PGERROR then
    if st.recursionDepth + 1 > 2 then { st with contextStack := [], debugQuery := none }
    else st
  else st

/-- The remainder of errstart after the promotion block
(elog.cpp:275-434): routing decisions, the fast-reject return
(elog.cpp:326-327), the hard-crash check for a missing ErrorContext
(elog.cpp:333-358), the recursion bookkeeping, the stack-overflow abort
(elog.cpp:382-394) and the push of the new frame with its defaults. -/
def errstartAfterPromotion (cfg : ElogCfg) (st : LogState) (e : Int) : ErrstartOutcome :=
  if (errstartRouting cfg e).e2 < PGERROR ∧ ¬(errstartRouting cfg e).os ∧
      ¬(errstartRouting cfg e).oc then .ret false st
  else if ¬cfg.errorContextAvailable then .crashNoContext
  else if (errstartRecursionAdjust st (errstartRouting cfg e).e2).frames.length ≥
      ERRORDATA_STACK_SIZE then .stackOverflowAbort
  else
    .ret true
      { errstartRecursionAdjust st (errstartRouting cfg e).e2 with
        frames :=
          errstartNewFrame cfg (errstartRouting cfg e) ::
            (errstartRecursionAdjust st (errstartRouting cfg e).e2).frames }

/-- errstart, begin an error-reporting cycle (elog.cpp:201-435). -/
def errstartModel (cfg : ElogCfg) (st : LogState) (elevel : Int) : ErrstartOutcome :=
  match errstartPromote cfg st elevel with
  | none => .recursiveReport
  | some e => errstartAfterPromotion cfg st e

/-- The frame pushed by a successful errstart, if any. -/
def errstartPushed (cfg : ElogCfg) (st : LogState) (elevel : Int) : Option Frame :=
  match errstartModel cfg st elevel with
  | .ret true st' => st'.frames.head?
  | _ => none

/-! ### pg_re_throw (elog.cpp:1697-1742) -/

/-- Outcome of pg_re_throw: either the non-local jump to the innermost
recovery point, or (with no recovery point registered) emission of the
record after in-place promotion. -/
inductive ReThrowResult where
  | jump
  | emit (e : Frame)
deriving DecidableEq, Repr

/-- pg_re_throw (elog.cpp:1697-1742): with a registered recovery point the
record is thrown to it; otherwise the top record (asserted to be at ERROR)
is promoted to FATAL in place, its server routing recomputed at FATAL and
its client routing forced on for a remote client, and it is emitted via
errfinish. -/
def pgReThrowModel (cfg : ElogCfg) (edata : Frame) : ReThrowResult :=
  if cfg.hasExceptionStack then .jump
  else
    .emit
      { edata with
        elevel := FATAL
        output_to_server := serverLogRoute cfg FATAL
        output_to_client :=
          if cfg.whereToSendOutput = Dest.remote then true else edata.output_to_client }

/-- The frame emitted by pg_re_throw, if it does not jump. -/
def pgReThrowEmitted (cfg : ElogCfg) (edata : Frame) : Option Frame :=
  match pgReThrowModel cfg edata with
  | .jump => none
  | .emit e => some e

/-! ### Sink fan-out: EmitErrorReport (elog.cpp:1470-1496) and the
client-side early returns of send_message_to_frontend (elog.cpp:3065-3097) -/

/-- Configuration and collaborators read by the fan-out: the per-module
gate is_errmodule_enable(elevel, mod_id) and the statement-retry
predicate IsStmtRetryAvaliable(elevel, sqlerrcode) are external to the
excerpt and enter as functions. -/
structure EmitCfg where
  moduleEnable : Int → Nat → Bool
  stmtRetryAvailable : Int → Int → Bool
  isPgxcCoordinator : Bool
  isConnFromApp : Bool
  isConnFromCoord : Bool
  streamThread : Bool

/-- Does send_message_to_frontend actually deliver the record to the
client channel?  Models its early returns (elog.cpp:3069-3094, release
build): a coordinator never sends sub-LOG detail to an application
connection, and relay connections drop sub-ERROR records that are not
explicitly marked client-visible.  After those checks a message is
always encoded and sent. -/
def sendToFrontendDelivers (cfg : EmitCfg) (edata : Frame) : Bool :=
  if cfg.isPgxcCoordinator ∧ cfg.isConnFromApp ∧ edata.elevel ≤ LOG then false
  else if (cfg.isConnFromCoord ∨ cfg.streamThread) ∧ edata.elevel < PGERROR ∧
      ¬edata.handle_in_client then false
  else true

/-- EmitErrorReport (elog.cpp:1470-1496): result is (sent to server log,
sent to client).  The server-log path gates on output_to_server and on
the per-module gate; the client path gates on output_to_client and the
retry-skip check, then on the early returns of
send_message_to_frontend. -/
def EmitErrorReportModel (cfg : EmitCfg) (edata : Frame) : Bool × Bool :=
  let toServer := edata.output_to_server && cfg.moduleEnable edata.elevel edata.mod_id
  let toClient :=
    if edata.output_to_client then
      let need_skip_by_retry := cfg.stmtRetryAvailable edata.elevel edata.sqlerrcode
      let can_skip := edata.elevel < FATAL
      if can_skip ∧ need_skip_by_retry then false
      else sendToFrontendDelivers cfg edata
    else false
  (toServer, toClient)

/-! ### The redaction scanner's absorption of a tokenizer error
(mask_Password_internal, elog.cpp:3621-3639 and 4058-4091) -/

/-- The engine state the scanner saves on entry and restores after its
local catch handler: the recovery-point registry (abstracted), the
context-callback chain (abstracted), the error-stack depth (C convention:
-1 is empty), the recursion depth, the interrupt-holdoff counter and the
escape_string_warning option. -/
structure ScanEngineState where
  pgExceptionStack : Option Nat
  errorContextStack : List Nat
  errordataDepth : Int
  recursionDepth : Int
  interruptHoldoffCount : Nat
  escapeStringWarning : Bool
deriving DecidableEq, Repr

/-- The frame-discard loop of the scanner's catch handler
(elog.cpp:4060-4082), verbatim: for (i = save+1; i <= depth; ++i)
{ ...free fields...; depth--; }.  Returns the depth it leaves behind. -/
def catchPopLoop (i depth : Int) : Int :=
  if i ≤ depth then catchPopLoop (i + 1) (depth - 1) else depth
termination_by (depth - i + 1).toNat
decreasing_by
  simp_wf
  omega

/-- One redaction attempt in which the tokenizer raises a parse error.
Follows mask_Password_internal in order: save the six components
(elog.cpp:3622-3627), install the scanner-local recovery point and zero
the recursion depth and context chain (elog.cpp:3632-3639), run the scan
during which the raised report pushes frames and leaves arbitrary
recursion/holdoff/context values behind when it jumps into the local
handler, discard the pushed frames (elog.cpp:4060-4082), and restore the
saved values (elog.cpp:4087-4091).  The jump lands in the scanner's own
handler because the registry was repointed at it, so the function
returns normally to its caller. -/
def maskScanOnTokenizerError (pre : ScanEngineState) (framesPushed : Nat)
    (attemptRecursion : Int) (attemptHoldoff : Nat) (attemptContext : List Nat) :
    ScanEngineState :=
  let save_exception_stack := pre.pgExceptionStack
  let save_context_stack := pre.errorContextStack
  let save_stack_depth := pre.errordataDepth
  let save_recursion_depth := pre.recursionDepth
  let save_interrupt_holdoff_count := pre.interruptHoldoffCount
  let save_escape_string_warning := pre.escapeStringWarning
  let st1 : ScanEngineState :=
    { pre with
      escapeStringWarning := false
      recursionDepth := 0
      errorContextStack := []
      pgExceptionStack := some 0 }
  let st2 : ScanEngineState :=
    { st1 with
      errordataDepth := st1.errordataDepth + framesPushed
      recursionDepth := attemptRecursion
      interruptHoldoffCount := attemptHoldoff
      errorContextStack := attemptContext }
  let st3 : ScanEngineState :=
    { st2 with errordataDepth := catchPopLoop (save_stack_depth + 1) st2.errordataDepth }
  { st3 with
    pgExceptionStack := save_exception_stack
    errorContextStack := save_context_stack
    recursionDepth := save_recursion_depth
    interruptHoldoffCount := save_interrupt_holdoff_count
    escapeStringWarning := save_escape_string_warning }

/-! ### The redaction scanner: mask_Password_internal (elog.cpp:3571-4105)

The SQL tokenizer is an external collaborator; per the interface it
yields a sequence of (token-kind, raw-text, start-offset) triples, which
enter the model as a token list (and as a tokenize function for child
statements).  Everything below the tokenizer is translated from the
source.  C strings are lists of characters; the in-place memmove/memset
edits of the source become list splices with identical semantics. -/

def sqChar : Char := Char.ofNat 39

def dqChar : Char := Char.ofNat 34

def nulChar : Char := Char.ofNat 0

/-- The token kinds mask_Password_internal distinguishes: the keywords it
switches on, identifiers, string literals, the four punctuation
characters it handles (40, 41, 44, 59), and a catch-all for every other
token.  The zero kind models the 0 the prev_token slots are initialized
to. -/
inductive TokKind where
  | CREATE | ALTER | SET | ROLE | SESSION | USER | LOCAL | GROUP_P | DATABASE
  | PASSWORD | BY | REPLACE | FUNCTION | PROCEDURE | DO | AS | IS | IMMEDIATE
  | EXECUTE | IDENTIFIED | FOREIGN | TABLE | SERVER | OPTIONS | DATA_P | SOURCE_P
  | IDENT | SCONST | ICONST | Op | lparen | rparen | comma | semi
  | otherKw | zero
deriving DecidableEq, Repr

/-- One tokenizer result: kind, the semantic text (yylval.str: literal
content for SCONST, identifier text for IDENT), and the byte offset of
the token in the scanned text (yylloc). -/
structure Tok where
  kind : TokKind
  s : String := ""
  loc : Nat := 0
deriving DecidableEq, Repr

/-- The local state of one mask_Password_internal invocation
(elog.cpp:3573-3619): the previous-token window, the candidate-span
buffer position[16]/length[16] with its index (the buffer is the list,
idx its length), the statement classifier, and the running masked copy.
lastStr holds the yylval.str left behind by the most recent
IDENT/SCONST, which the left-parenthesis case reads. -/
structure MaskSt where
  curr_token : TokKind := .semi
  lastStr : String := ""
  is_password : Bool := false
  mask_string : Option (List Char) := none
  buf : List (Nat × Nat) := []
  is_create_func : Bool := false
  is_child_stmt : Bool := false
  truncateLen : Nat := 0
  is_crypt_func : Bool := false
  count_crypt : Int := 0
  position_crypt : Nat := 0
  cur_stmt_type : Nat := 0
  prev1 : TokKind := .zero
  prev2 : TokKind := .zero
  prev3 : TokKind := .zero
deriving Repr

/-- erase_single_quotes (elog.cpp:4107-4133): blank out single quotes
outside double quotes, stop at a semicolon that closes an even number of
quotes, and blank the two characters of a concatenation operator. -/
def eraseSingleQuotesAux (inD : Bool) (count : Nat) (l : List Char) : List Char :=
  match l with
  | [] => []
  | [c] =>
    if c = sqChar ∧ ¬inD then [' '] else [c]
  | c :: c2 :: cs2 =>
    if c = sqChar ∧ ¬inD then ' ' :: eraseSingleQuotesAux inD (count + 1) (c2 :: cs2)
    else if c = ';' then
      if count % 2 = 0 then c :: c2 :: cs2
      else c :: eraseSingleQuotesAux inD count (c2 :: cs2)
    else if c = dqChar then c :: eraseSingleQuotesAux (¬inD) count (c2 :: cs2)
    else if c = '|' ∧ c2 = '|' then ' ' :: ' ' :: eraseSingleQuotesAux inD count cs2
    else c :: eraseSingleQuotesAux inD count (c2 :: cs2)
def eraseSingleQuotes (s : String) : String :=
  ⟨eraseSingleQuotesAux false 0 s.data⟩

/-- The backward scan of the flush loop (elog.cpp:3720-3723): step the
start of an unquoted password-like token back to the nearest whitespace
or quote.  The argument is the current position; the character inspected
each step is the one before it. -/
def backScan (q : List Char) : Nat → Nat
  | 0 => 0
  | p + 1 =>
    let wh := q.getD p nulChar
    if ¬wh.isWhitespace ∧ wh ≠ sqChar ∧ wh ≠ dqChar then backScan q p else p + 1

/-- The in-place buffer edit of one flush step (elog.cpp:3730-3748) in
list form: grow the buffer if the span is shorter than the mask width,
memmove the tail from just after the span to just after the mask, and
memset the mask; the net effect replaces the len characters at start by
maskLen mask characters. -/
def maskSplice (ms : List Char) (start len maskLen : Nat) : List Char :=
  ms.take start ++ List.replicate maskLen '*' ++ ms.drop (start + len)

/-- One iteration of the flush loop over the buffered spans
(elog.cpp:3713-3751): the unquoted-password backward scan with its
trailing-semicolon adjustment, the splice at (position - truncateLen)
with the fixed mask width, and the truncation accounting, which grows
only when the span was longer than the mask. -/
def flushSpan (q : List Char) (is_password : Bool) (maskLen : Nat)
    (acc : List Char × Nat) (span : Nat × Nat) : List Char × Nat :=
  let ms := acc.1
  let trunc := acc.2
  let p0 := span.1
  let l0 := span.2
  let wordHead := if p0 > 0 then q.getD (p0 - 1) nulChar else nulChar
  let pl :=
    if is_password ∧ wordHead ≠ nulChar ∧ wordHead ≠ sqChar ∧ wordHead ≠ dqChar then
      let p1 := backScan q p0
      let l1 := q.length - p1
      let l2 := if q.getD (p1 + l1 - 1) nulChar = ';' then l1 - 1 else l1
      (p1, l2)
    else (p0, l0)
  let ms2 := maskSplice ms (pl.1 - trunc) pl.2 maskLen
  let trunc2 := if pl.2 > maskLen then trunc + (pl.2 - maskLen) else trunc
  (ms2, trunc2)

/-- ASCII lower-casing of one character, as pg_strcasecmp folds case. -/
def asciiLower (c : Char) : Char :=
  if 'A' ≤ c ∧ c ≤ 'Z' then Char.ofNat (c.toNat + 32) else c

/-- pg_strcasecmp(a, b) == 0: case-insensitive equality of the two
strings. -/
def pg_strcasecmp_eq (a b : String) : Bool :=
  a.data.map asciiLower = b.data.map asciiLower

/-- The big switch of mask_Password_internal (elog.cpp:3767-4055).  The
returned state has curr_token set for the next iteration (the PASSWORD
case rewrites it to IDENT for the server/data-source option paths,
elog.cpp:3822 and 3826). -/
def maskSwitch (q : List Char) (prev0 : TokKind) (tok : Tok) (st : MaskSt) : MaskSt :=
  let base := { st with curr_token := tok.kind }
  match tok.kind with
  | .ROLE | .SESSION =>
    if st.cur_stmt_type > 0 then base
    else if prev0 = .CREATE then { base with cur_stmt_type := 1 }
    else if prev0 = .ALTER then { base with cur_stmt_type := 3 }
    else if prev0 = .SET then { base with cur_stmt_type := 6 }
    else if st.prev1 = .SET ∧ (prev0 = .LOCAL ∨ prev0 = .SESSION) then
      { base with cur_stmt_type := 6, prev1 := .zero }
    else base
  | .USER =>
    if st.cur_stmt_type > 0 then base
    else if prev0 = .CREATE then { base with cur_stmt_type := 2 }
    else if prev0 = .ALTER then { base with cur_stmt_type := 4 }
    else base
  | .LOCAL =>
    if prev0 = .SET then { base with prev1 := .SET } else base
  | .GROUP_P =>
    if st.cur_stmt_type > 0 then base
    else if prev0 = .CREATE then { base with cur_stmt_type := 5 }
    else base
  | .DATABASE =>
    if prev0 = .CREATE then { base with prev1 := .CREATE } else base
  | .PASSWORD =>
    let b2 :=
      if st.prev1 = .SERVER ∧ st.prev2 = .OPTIONS then
        { base with cur_stmt_type := 10, curr_token := .IDENT }
      else if st.prev1 = .DATA_P ∧ st.prev2 = .SOURCE_P ∧ st.prev3 = .OPTIONS then
        { base with cur_stmt_type := 11, curr_token := .IDENT }
      else base
    { b2 with is_password := true, buf := [] }
  | .BY =>
    let pw := st.cur_stmt_type > 0 ∧ prev0 = .IDENTIFIED
    if pw then { base with is_password := true, buf := [] }
    else { base with is_password := false }
  | .REPLACE =>
    let pw := st.cur_stmt_type = 3 ∨ st.cur_stmt_type = 4
    if pw then { base with is_password := true, buf := [] }
    else { base with is_password := false }
  | .FUNCTION | .PROCEDURE =>
    if st.cur_stmt_type > 0 then base
    else if prev0 = .CREATE ∨ prev0 = .REPLACE then { base with is_create_func := true }
    else base
  | .DO =>
    { base with is_create_func := false, is_child_stmt := true }
  | .AS | .IS =>
    if st.is_create_func then { base with is_create_func := false, is_child_stmt := true }
    else base
  | .IMMEDIATE =>
    if st.cur_stmt_type > 0 then base
    else if prev0 = .EXECUTE then { base with is_child_stmt := true }
    else base
  | .lparen =>
    let b1 := if st.is_crypt_func then { base with count_crypt := st.count_crypt + 1 } else base
    if prev0 = .IDENT then
      if pg_strcasecmp_eq st.lastStr "dblink_connect" then { b1 with cur_stmt_type := 8 }
      else if pg_strcasecmp_eq st.lastStr "exec_on_extension" ∨ pg_strcasecmp_eq st.lastStr "exec_hadoop_sql" then
        { b1 with is_child_stmt := false, prev1 := .lparen, cur_stmt_type := 12 }
      else if pg_strcasecmp_eq st.lastStr "gs_encrypt_aes128" ∨ pg_strcasecmp_eq st.lastStr "gs_decrypt_aes128" then
        let b2 := { b1 with is_crypt_func := true, cur_stmt_type := 8 }
        if b1.count_crypt = 0 then
          { b2 with count_crypt := b1.count_crypt + 1, position_crypt := tok.loc + 1 }
        else b2
      else b1
    else b1
  | .rparen =>
    let b1 :=
      if st.is_crypt_func then
        let c2 := st.count_crypt - 1
        if c2 = 0 then
          let ms := st.mask_string.getD q
          let ms2 :=
            if tok.loc > st.position_crypt then
              maskSplice ms st.position_crypt (tok.loc - st.position_crypt)
                (tok.loc - st.position_crypt)
            else ms
          { base with
            mask_string := some ms2, count_crypt := 0,
            is_crypt_func := false, position_crypt := 0 }
        else { base with count_crypt := c2 }
      else base
    let b2 :=
      if b1.cur_stmt_type = 8 then
        let ms := b1.mask_string.getD q
        let ms2 := b1.buf.foldl (fun m pr => maskSplice m pr.1 pr.2 pr.2) ms
        { b1 with mask_string := some ms2, buf := [], cur_stmt_type := 0 }
      else b1
    if b2.cur_stmt_type = 12 then { b2 with cur_stmt_type := 0, prev1 := .zero }
    else b2
  | .comma =>
    if st.cur_stmt_type = 12 ∧ st.prev1 = .lparen then { base with is_child_stmt := true }
    else base
  | .semi =>
    { base with cur_stmt_type := 0, is_password := false, buf := [] }
  | .FOREIGN =>
    if prev0 = .CREATE ∨ prev0 = .ALTER then { base with prev1 := .FOREIGN } else base
  | .TABLE =>
    if st.prev1 = .FOREIGN then { base with prev2 := .TABLE } else base
  | .SERVER =>
    if prev0 = .CREATE ∨ prev0 = .ALTER then { base with prev1 := .SERVER } else base
  | .OPTIONS =>
    if st.prev1 = .SERVER then { base with prev2 := .OPTIONS }
    else if st.prev1 = .FOREIGN ∧ st.prev2 = .TABLE then { base with prev3 := .OPTIONS }
    else if st.prev1 = .DATA_P ∧ st.prev2 = .SOURCE_P then { base with prev3 := .OPTIONS }
    else base
  | .DATA_P =>
    if prev0 = .CREATE ∨ prev0 = .ALTER then { base with prev1 := .DATA_P } else base
  | .SOURCE_P =>
    if st.prev1 = .DATA_P then { base with prev2 := .SOURCE_P } else base
  | .IDENT =>
    if (st.prev1 = .SERVER ∧ st.prev2 = .OPTIONS) ∨
        (st.prev1 = .FOREIGN ∧ st.prev2 = .TABLE ∧ st.prev3 = .OPTIONS) then
      if pg_strcasecmp_eq tok.s "secret_access_key" then { base with cur_stmt_type := 10, buf := [] }
      else { base with cur_stmt_type := 0, buf := [] }
    else if st.prev1 = .DATA_P ∧ st.prev2 = .SOURCE_P ∧ st.prev3 = .OPTIONS then
      if pg_strcasecmp_eq tok.s "username" then { base with cur_stmt_type := 11, buf := [] }
      else { base with cur_stmt_type := 0, buf := [] }
    else base
  | .SCONST =>
    if (st.cur_stmt_type = 10 ∨ st.cur_stmt_type = 11) ∧ prev0 = .IDENT then
      let ms := st.mask_string.getD q
      let pr := st.buf.headD (0, 0)
      { base with
        mask_string := some (maskSplice ms pr.1 pr.2 pr.2),
        buf := [], cur_stmt_type := 0 }
    else base
  | _ => base

/-- The span-buffering step that precedes the switch
(elog.cpp:3691-3765): inside a sensitive statement (other than type 12)
every SCONST/IDENT is buffered, skipping a leading quote character; a
parse error is raised when the token offset is outside the text, which
the local catch turns into returning the current mask (left result);
a full buffer or an armed is_password triggers the flush. -/
def maskBufferStep (q : List Char) (maskLen : Nat) (tok : Tok) (st : MaskSt) :
    Option (List Char) ⊕ MaskSt :=
  if st.cur_stmt_type > 0 ∧ st.cur_stmt_type ≠ 12 ∧
      (tok.kind = .SCONST ∨ tok.kind = .IDENT) then
    if tok.loc ≥ q.length then .inl st.mask_string
    else
      let ch := q.getD tok.loc nulChar
      let pos := if ch = sqChar ∨ ch = dqChar then tok.loc + 1 else tok.loc
      let buf2 := st.buf ++ [(pos, tok.s.length)]
      if buf2.length = 16 ∨ st.is_password then
        let ms0 := st.mask_string.getD q
        let res := buf2.foldl (flushSpan q st.is_password maskLen) (ms0, st.truncateLen)
        .inr { st with
               mask_string := some res.1, truncateLen := res.2, buf := [],
               is_password := false,
               cur_stmt_type :=
                 if st.cur_stmt_type = 10 ∨ st.cur_stmt_type = 11 then 0
                 else st.cur_stmt_type }
      else .inr { st with buf := buf2 }
  else .inr st

/-- The token loop of mask_Password_internal (elog.cpp:3643-4056): the
child-statement splice branch, then the buffering step, then the switch.
On the parse-error paths (offset out of range, child length mismatch,
elog.cpp:3672-3675 and 3692-3694) the raised report lands in the
function's own catch handler and the current mask is returned.  The
recursive invocation on a child statement (elog.cpp:3667) enters as the
child function. -/
def maskLoop (child : String → Option (List Char)) (maskLen : Nat)
    (q : List Char) (toks : List Tok) (st : MaskSt) : Option (List Char) :=
  match toks with
  | [] => st.mask_string
  | tok :: rest =>
    let prev0 := st.curr_token
    let st0 :=
      { st with
        lastStr :=
          if tok.kind = TokKind.IDENT ∨ tok.kind = TokKind.SCONST then tok.s else st.lastStr }
    if st0.is_child_stmt ∧ tok.kind = .SCONST ∧ tok.s ≠ "" then
      -- dynamically executed child text (elog.cpp:3656-3684)
      let stc := { st0 with is_child_stmt := false, curr_token := tok.kind }
      let s1 := if prev0 = .IMMEDIATE then eraseSingleQuotes tok.s else tok.s
      match child s1 with
      | some childStmt =>
        let ms := stc.mask_string.getD q
        if tok.s.length ≠ childStmt.length then some ms
        else
          let ms2 := ms.take (tok.loc + 1) ++ childStmt ++ ms.drop (tok.loc + 1 + childStmt.length)
          maskLoop child maskLen q rest { stc with mask_string := some ms2 }
      | none => maskLoop child maskLen q rest stc
    else
      let st1 := { st0 with is_child_stmt := false }
      match maskBufferStep q maskLen tok st1 with
      | .inl v => v
      | .inr st2 => maskLoop child maskLen q rest (maskSwitch q prev0 tok st2)

/-- One whole invocation of mask_Password_internal on a text: tokenize
it and run the loop with a fresh local state; the recursion into child
statements is fuelled (the C recursion has no static bound; concrete
runs use any fuel at least the nesting depth). -/
def maskScanTop (tokenize : String → List Tok) : Nat → Nat → String → Option (List Char)
  | 0, _, _ => none
  | fuel + 1, maskLen, s =>
    maskLoop (fun t => maskScanTop tokenize fuel maskLen t) maskLen s.data (tokenize s) {}

/-- maskPassword on a given token stream: run the scanner over the text
with the triples the tokenizer produced for it, handing child statements
to the fuelled scanner; none means nothing was masked. -/
def maskPasswordRun (tokenize : String → List Tok) (fuel : Nat) (maskLen : Nat)
    (q : String) (toks : List Tok) : Option String :=
  (maskLoop (fun t => maskScanTop tokenize fuel maskLen t) maskLen q.data toks {}).map
    fun l => ⟨l⟩

/-! ### Concrete inputs and configurations

Token lists below are the (token-kind, text, start-offset) triples the
external tokenizer yields for the given statements: keywords lex as
their keyword token, quoted literals as SCONST carrying the literal
content with the offset of the opening quote, runs of operator
characters (such as a run of mask characters) as one operator token. -/

def sqStr : String := String.singleton sqChar

/-- A concrete frame helper: a frame as errstart initializes it. -/
def mkFrame (e : Int) (os oc : Bool) (code : Int) : Frame :=
  { elevel := e, verbose := false, output_to_server := os, output_to_client := oc,
    handle_in_client := false, sqlerrcode := code, saved_errno := 0, mod_id := MOD_MAX }

/-- A baseline configuration: postmaster environment, remote
authenticated client, server-log minimum WARNING, client minimum
NOTICE, no special process roles, error machinery initialized. -/
def cfgBase : ElogCfg :=
  { CritSectionCount := 0
    hasExceptionStack := true
    proc_exit_inprogress := false
    ExitOnAnyError := false
    amPostmasterProcess := false
    amGracefulExitProcess := false
    test_err_type := 0
    IsPostmasterEnvironment := true
    log_min_messages := WARNING
    client_min_messages := NOTICE
    whereToSendOutput := Dest.remote
    ClientAuthInProgress := false
    streamThread := false
    isPgxcCoordinator := false
    amWLMProcess := false
    errorContextAvailable := true
    saved_errno := 0 }

/-- The empty engine state. -/
def st0 : LogState :=
  { frames := [], recursionDepth := 0, contextStack := [], debugQuery := none }

/-- Baseline with no registered recovery point. -/
def cfgC1 : ElogCfg := { cfgBase with hasExceptionStack := false }

/-- A top record at ERROR, as handed to pg_re_throw. -/
def edC1 : Frame := mkFrame PGERROR true false ERRCODE_WRONG_OBJECT_TYPE

/-- A pending ERROR frame and the state in which it is on the stack. -/
def frPendingError : Frame := mkFrame PGERROR true true ERRCODE_WRONG_OBJECT_TYPE

def stPendingError : LogState := { st0 with frames := [frPendingError] }

/-- Fan-out configuration whose per-module gate rejects every module. -/
def emitCfgAllModulesOff : EmitCfg :=
  { moduleEnable := fun _ _ => false
    stmtRetryAvailable := fun _ _ => false
    isPgxcCoordinator := false
    isConnFromApp := false
    isConnFromCoord := false
    streamThread := false }

/-- A record routed to both destination types, tagged with module 3. -/
def edBothSinks : Frame :=
  { elevel := PGERROR, verbose := false, output_to_server := true, output_to_client := true,
    handle_in_client := false, sqlerrcode := ERRCODE_WRONG_OBJECT_TYPE, saved_errno := 0,
    mod_id := 3 }

/-- The frame errstart pushes for a plain NOTICE under cfgBase. -/
def frNotice : Frame := mkFrame NOTICE false true ERRCODE_SUCCESSFUL_COMPLETION

/-- The frame errstart pushes for COMMERROR under cfgBase. -/
def frCommErr : Frame := mkFrame COMMERROR true false ERRCODE_SUCCESSFUL_COMPLETION

/-- The statement of the specification example. -/
def exampleCreateUser : String :=
  "CREATE USER alice PASSWORD " ++ sqStr ++ "Secret123" ++ sqStr ++ ";"

def exampleCreateUserToks : List Tok :=
  [ { kind := .CREATE, s := "create", loc := 0 },
    { kind := .USER, s := "user", loc := 7 },
    { kind := .IDENT, s := "alice", loc := 12 },
    { kind := .PASSWORD, s := "password", loc := 18 },
    { kind := .SCONST, s := "Secret123", loc := 27 },
    { kind := .semi, loc := 38 } ]

def exampleCreateUserMasked : String :=
  "CREATE USER alice PASSWORD " ++ sqStr ++ "********" ++ sqStr ++ ";"

/-- A call of the allow-listed sensitive function dblink_connect with a
five-character literal argument. -/
def exampleDblink : String := "SELECT dblink_connect(" ++ sqStr ++ "Zop12" ++ sqStr ++ ");"

def exampleDblinkToks : List Tok :=
  [ { kind := .otherKw, s := "select", loc := 0 },
    { kind := .IDENT, s := "dblink_connect", loc := 7 },
    { kind := .lparen, loc := 21 },
    { kind := .SCONST, s := "Zop12", loc := 22 },
    { kind := .rparen, loc := 29 },
    { kind := .semi, loc := 30 } ]

def exampleDblinkMasked : String := "SELECT dblink_connect(" ++ sqStr ++ "*****" ++ sqStr ++ ");"

/-- A session-role statement with seventeen one-character identifiers:
the seventeenth fills the sixteen-slot candidate buffer, forcing the
flush; every span is shorter than the mask width, so the buffer grows
without the truncation accumulator recording the (negative) deltas. -/
def setRoleStmt : String := "SET ROLE a b c d e f g h i j k l m n o p q"

def setRoleToks : List Tok :=
  [ { kind := .SET, s := "set", loc := 0 },
    { kind := .ROLE, s := "role", loc := 4 } ] ++
  (List.range 17).map fun i =>
    { kind := .IDENT, s := String.singleton (Char.ofNat (97 + i)), loc := 9 + 2 * i }

/-- What the first scan makes of setRoleStmt (as the model computes it):
the sixteen drifting splices pile 113 mask characters after the
statement head and leave the last sixteen identifiers unmasked. -/
def setRoleMasked1 : String :=
  "SET ROLE " ++ String.mk (List.replicate 113 '*') ++ " b c d e f g h i j k l m n o p q"

/-- The tokenizer triples for setRoleMasked1: the star run is one
operator token; sixteen identifiers remain. -/
def setRoleMasked1Toks : List Tok :=
  [ { kind := .SET, s := "set", loc := 0 },
    { kind := .ROLE, s := "role", loc := 4 },
    { kind := .Op, s := "", loc := 9 } ] ++
  (List.range 16).map fun i =>
    { kind := .IDENT, s := String.singleton (Char.ofNat (98 + i)), loc := 123 + 2 * i }

/-- A tokenizer stub for top-level runs whose inputs contain no child
statements (the child branch is never reached on them). -/
def noChildTokenizer : String → List Tok := fun _ => []

/-! ### Helper lemmas -/

theorem foldl_max_elevel_init (l : List Frame) (a : Int) :
    a ≤ l.foldl (fun m fr => max m fr.elevel) a := by
  induction l generalizing a with
  | nil => exact le_refl a
  | cons b t ih =>
    simp only [List.foldl_cons]
    exact le_trans (le_max_left a b.elevel) (ih (max a b.elevel))

theorem foldl_max_elevel_mem (l : List Frame) (a : Int) (f : Frame) (hf : f ∈ l) :
    f.elevel ≤ l.foldl (fun m fr => max m fr.elevel) a := by
  induction l generalizing a with
  | nil => cases hf
  | cons b t ih =>
    simp only [List.foldl_cons]
    rcases List.mem_cons.mp hf with h | h
    · subst h
      exact le_trans (le_max_right a f.elevel) (foldl_max_elevel_init t (max a f.elevel))
    · exact ih (max a b.elevel) h

theorem foldl_max_elevel_of_le (l : List Frame) (a : Int) (h : ∀ f ∈ l, f.elevel ≤ a) :
    l.foldl (fun m fr => max m fr.elevel) a = a := by
  induction l with
  | nil => rfl
  | cons b t ih =>
    simp only [List.foldl_cons]
    rw [max_eq_left (h b (List.mem_cons_self b t))]
    exact ih fun f hf => h f (List.mem_cons_of_mem b hf)

/-- The frame pushed by the post-promotion part of errstart, if any. -/
def afterPromotionPushed (cfg : ElogCfg) (st : LogState) (e : Int) : Option Frame :=
  match errstartAfterPromotion cfg st e with
  | .ret true st' => st'.frames.head?
  | _ => none

theorem errstartPushed_eq (cfg : ElogCfg) (st : LogState) (lv : Int) :
    errstartPushed cfg st lv =
      match errstartPromote cfg st lv with
      | none => none
      | some e => afterPromotionPushed cfg st e := by
  unfold errstartPushed errstartModel afterPromotionPushed
  cases errstartPromote cfg st lv with
  | none => rfl
  | some e => rfl

theorem afterPromotionPushed_frame (cfg : ElogCfg) (st : LogState) (e : Int) (fr : Frame)
    (h : afterPromotionPushed cfg st e = some fr) :
    fr = errstartNewFrame cfg (errstartRouting cfg e) := by
  unfold afterPromotionPushed errstartAfterPromotion at h
  split at h
  · rename_i st' heq
    split at heq
    · cases heq
    · split at heq
      · cases heq
      · split at heq
        · cases heq
        · cases heq
          exact (Option.some.inj h).symm
  · exact absurd h (by simp)

theorem routing_e2 (cfg : ElogCfg) (e : Int) :
    (errstartRouting cfg e).e2 = if e = VERBOSEMESSAGE ∧ cfg.isPgxcCoordinator then INFO else e :=
  rfl

theorem routing_os (cfg : ElogCfg) (e : Int) :
    (errstartRouting cfg e).os = serverLogRoute cfg e :=
  rfl

theorem errstartRecursionAdjust_frames (st : LogState) (e2 : Int) :
    (errstartRecursionAdjust st e2).frames = st.frames := by
  unfold errstartRecursionAdjust
  split_ifs <;> rfl

theorem routing_oc (cfg : ElogCfg) (e : Int) :
    (errstartRouting cfg e).oc =
      (if cfg.amWLMProcess ∧ (if e = VERBOSEMESSAGE ∧ cfg.isPgxcCoordinator then INFO else e) ≥
          PGERROR then false
       else if e = VERBOSEMESSAGE then true
       else if cfg.streamThread ∧ e = NOTICE then true
       else if cfg.whereToSendOutput = Dest.remote ∧ e ≠ COMMERROR then
         if cfg.ClientAuthInProgress then decide (e ≥ PGERROR)
         else decide (e ≥ cfg.client_min_messages) || decide (e = INFO)
       else false) :=
  rfl

theorem routing_e2_of_ge (cfg : ElogCfg) (e : Int) (h : PGERROR ≤ e) :
    (errstartRouting cfg e).e2 = e := by
  rw [routing_e2, if_neg]
  rintro ⟨hv, -⟩
  rw [hv] at h
  exact absurd h (by decide)

/-- C2: on a tokenizer parse error during a redaction attempt the
scanner absorbs the error completely: the frame the aborted report
pushed is discarded by the catch loop, and the recursion depth, the
context-callback chain, the error-stack depth, the interrupt-holdoff
counter (and the recovery-point registry and the string-warning option)
are restored to exactly their values from before the scan, whatever the
aborted attempt left in them; since the raise lands in the scanner's own
local recovery point, nothing propagates to the caller. -/
theorem C2_scanner_absorbs_tokenizer_error (pre : ScanEngineState)
    (attemptRecursion : Int) (attemptHoldoff : Nat) (attemptContext : List Nat) :
    maskScanOnTokenizerError pre 1 attemptRecursion attemptHoldoff attemptContext = pre := by
  have hp : ∀ d : Int, catchPopLoop (d + 1) (d + 1) = d := by
    intro d
    rw [catchPopLoop, if_pos (le_refl (d + 1)), catchPopLoop, if_neg (by omega)]
    omega
  cases pre with
  | mk a b c d e f =>
    simp only [maskScanOnTokenizerError, Nat.cast_one]
    rw [hp c]

/-- C5 counterexample: a record routed to both destination types, whose
module is rejected by the per-module gate, is suppressed on the server
log but still delivered to the client: the client sink applies no
per-module minimum-severity gate, so the claim that both sinks
independently gate on module_id is false. -/
theorem C5_counterexample :
    EmitErrorReportModel emitCfgAllModulesOff edBothSinks = (false, true) ∧
    emitCfgAllModulesOff.moduleEnable edBothSinks.elevel edBothSinks.mod_id = false ∧
    edBothSinks.output_to_client = true ∧ edBothSinks.output_to_server = true := by
  refine ⟨rfl, rfl, rfl, rfl⟩

/-- C5 amended: only the server-log sink applies the per-module gate —
it emits exactly when the record is routed to the server and the gate
admits its module — while the client sink's decision is entirely
independent of the per-module gate function. -/
theorem C5_amended (cfg : EmitCfg) (ed : Frame) (f g : Int → Nat → Bool) :
    (EmitErrorReportModel cfg ed).1 =
      (ed.output_to_server && cfg.moduleEnable ed.elevel ed.mod_id) ∧
    (EmitErrorReportModel { cfg with moduleEnable := f } ed).2 =
      (EmitErrorReportModel { cfg with moduleEnable := g } ed).2 :=
  ⟨rfl, rfl⟩

/-- C8 counterexample: COMMERROR is a non-LOG severity for which the
server-log routing decision is not the plain numeric comparison: with
the minimum configured at WARNING, a COMMERROR record is routed even
though its numeric level is below the minimum. -/
theorem C8_counterexample :
    is_log_level_output COMMERROR WARNING = true ∧
    decide (COMMERROR ≥ WARNING) = false ∧
    COMMERROR ≠ LOG := by
  refine ⟨rfl, rfl, by decide⟩

/-- C8 amended: for server-log routing the LOG level sorts between ERROR
and FATAL: LOG is routed exactly when the minimum is LOG itself or at
most ERROR, and is suppressed when the minimum is FATAL or PANIC; the
same special rule also covers COMMERROR, and for every severity other
than LOG and COMMERROR the decision is the plain numeric comparison. -/
theorem C8_amended (lv m : Int) (h1 : lv ≠ LOG) (h2 : lv ≠ COMMERROR) :
    is_log_level_output LOG m = (decide (m = LOG) || decide (m ≤ PGERROR)) ∧
    ((m = FATAL ∨ m = PANIC) → is_log_level_output LOG m = false) ∧
    is_log_level_output COMMERROR m = is_log_level_output LOG m ∧
    is_log_level_output lv m = decide (lv ≥ m) := by
  refine ⟨?_, ?_, ?_, ?_⟩
  · unfold is_log_level_output
    rw [if_pos (Or.inl rfl)]
    by_cases hm : m = LOG ∨ m ≤ PGERROR
    · rw [if_pos hm]
      rcases hm with hm | hm <;> simp [hm]
    · rw [if_neg hm]
      push_neg at hm
      rw [decide_eq_false hm.1, decide_eq_false (not_le.mpr hm.2)]
      rfl
  · rintro (hm | hm) <;> subst hm <;> rfl
  · unfold is_log_level_output
    rw [if_pos (Or.inr rfl), if_pos (Or.inl rfl)]
  · unfold is_log_level_output
    rw [if_neg (by rintro (h | h); exacts [h1 h, h2 h])]
    by_cases hge : lv ≥ m
    · rw [if_pos hge, decide_eq_true_eq.mpr hge]
    · rw [if_neg hge, decide_eq_false hge]

theorem C8_witness :
    is_log_level_output LOG NOTICE =
      (decide (NOTICE = LOG) || decide (NOTICE ≤ PGERROR)) ∧
    ((NOTICE = FATAL ∨ NOTICE = PANIC) → is_log_level_output LOG NOTICE = false) ∧
    is_log_level_output COMMERROR NOTICE = is_log_level_output LOG NOTICE ∧
    is_log_level_output WARNING NOTICE = decide (WARNING ≥ NOTICE) :=
  C8_amended WARNING NOTICE (by decide) (by decide)

/-- C10: a COMMERROR reporting cycle is never routed to the client —
whenever errstart pushes a frame for COMMERROR, the frame's
output_to_client is false regardless of the configured client minimum —
while for server-log routing COMMERROR is treated exactly like LOG. -/
theorem C10_commerror_never_to_client (m : Int) (cfg : ElogCfg) (st : LogState) (fr : Frame)
    (h : errstartPushed cfg st COMMERROR = some fr) :
    is_log_level_output COMMERROR m = is_log_level_output LOG m ∧
    fr.output_to_client = false := by
  constructor
  · unfold is_log_level_output
    rw [if_pos (Or.inr rfl), if_pos (Or.inl rfl)]
  · rw [errstartPushed_eq] at h
    have hp : errstartPromote cfg st COMMERROR = some COMMERROR := by
      unfold errstartPromote
      rw [if_neg (by decide)]
    rw [hp] at h
    have hfr := afterPromotionPushed_frame cfg st COMMERROR fr h
    rw [hfr]
    show (errstartRouting cfg COMMERROR).oc = false
    rw [routing_oc]
    rw [if_neg (by decide : ¬(COMMERROR = VERBOSEMESSAGE)), if_neg, if_neg, if_neg]
    · rintro ⟨-, hne⟩
      exact hne rfl
    · rintro ⟨-, hn⟩
      exact absurd hn (by decide)
    · rintro ⟨-, hge⟩
      rw [if_neg (by rintro ⟨hv, -⟩; exact absurd hv (by decide))] at hge
      exact absurd hge (by decide)

theorem C10_witness :
    is_log_level_output COMMERROR FATAL = is_log_level_output LOG FATAL ∧
    frCommErr.output_to_client = false :=
  C10_commerror_never_to_client FATAL cfgBase st0 frCommErr (by decide)

theorem errstartPromote_bounds (cfg : ElogCfg) (st : LogState) (lv e : Int)
    (h1 : PGERROR ≤ lv) (h2 : lv ≤ PANIC)
    (he : errstartPromote cfg st lv = some e) :
    lv ≤ e ∧ ∀ f ∈ st.frames, f.elevel ≤ e := by
  unfold errstartPromote at he
  rw [if_pos h1] at he
  by_cases hcrit : cfg.CritSectionCount > 0
  · rw [if_pos hcrit] at he
    rw [if_neg (by rintro ⟨hP, -⟩; exact absurd hP (by decide))] at he
    have heq := Option.some.inj he
    subst heq
    refine ⟨le_trans h2 (foldl_max_elevel_init st.frames PANIC), ?_⟩
    intro f hf
    exact foldl_max_elevel_mem st.frames PANIC f hf
  · rw [if_neg hcrit] at he
    by_cases hlv : lv = PGERROR
    · by_cases htest : cfg.test_err_type ≥ 3
      · rw [if_pos ⟨hlv, htest⟩] at he
        cases he
      · rw [if_neg (by rintro ⟨-, ht⟩; exact htest ht)] at he
        rw [if_pos hlv] at he
        have heq := Option.some.inj he
        subst heq
        set eB :=
          (if cfg.ExitOnAnyError ∧ ¬cfg.amPostmasterProcess then
            if cfg.amGracefulExitProcess then FATAL else PANIC
           else if ¬cfg.hasExceptionStack ∨ cfg.proc_exit_inprogress then FATAL else lv) with hB
        have hlb : lv ≤ eB := by
          rw [hB, hlv]
          split_ifs <;> decide
        refine ⟨le_trans hlb (foldl_max_elevel_init st.frames eB), ?_⟩
        intro f hf
        exact foldl_max_elevel_mem st.frames eB f hf
    · rw [if_neg (by rintro ⟨hP, -⟩; exact hlv hP)] at he
      rw [if_neg hlv] at he
      have heq := Option.some.inj he
      subst heq
      refine ⟨foldl_max_elevel_init st.frames lv, ?_⟩
      intro f hf
      exact foldl_max_elevel_mem st.frames lv f hf

/-- C4 counterexample: the stack-maximum escalation pass runs only for
requested severities at or above ERROR.  With an ERROR frame pending on
the stack, opening a WARNING cycle records WARNING — strictly below the
maximum pending severity — so the claim that the recorded severity of
every reporting cycle is at least the maximum pending severity is
false; the emission of that frame (errfinish and the sinks use the
recorded elevel) happens at WARNING while the ERROR is still pending. -/
theorem C4_counterexample :
    (errstartPushed cfgBase stPendingError WARNING).map Frame.elevel = some WARNING ∧
    frPendingError ∈ stPendingError.frames ∧
    frPendingError.elevel = PGERROR ∧
    ¬(PGERROR ≤ WARNING) := by
  refine ⟨by decide, by decide, by decide, by decide⟩

/-- C4 amended: the stack-maximum rule holds for every reporting cycle
whose requested severity is at least ERROR (the only cycles to which the
engine applies its escalation pass): the recorded severity of the pushed
frame is at least the requested severity and at least the severity of
every frame still pending on the stack, so an ERROR-or-higher report
can never downgrade a pending higher frame. -/
theorem C4_amended (cfg : ElogCfg) (st : LogState) (lv : Int) (fr : Frame)
    (h1 : PGERROR ≤ lv) (h2 : lv ≤ PANIC)
    (h : errstartPushed cfg st lv = some fr) :
    lv ≤ fr.elevel ∧ ∀ f ∈ st.frames, f.elevel ≤ fr.elevel := by
  rw [errstartPushed_eq] at h
  cases hp : errstartPromote cfg st lv with
  | none => rw [hp] at h; cases h
  | some e =>
    rw [hp] at h
    obtain ⟨hle, hmem⟩ := errstartPromote_bounds cfg st lv e h1 h2 hp
    have hfr := afterPromotionPushed_frame cfg st e fr h
    have hlev : fr.elevel = e := by
      rw [hfr]
      exact routing_e2_of_ge cfg e (le_trans h1 hle)
    rw [hlev]
    exact ⟨hle, hmem⟩

theorem C4_witness :
    PGERROR ≤ PGERROR ∧ PGERROR ≤ PANIC ∧
    (PGERROR ≤ frPendingError.elevel ∧
      ∀ f ∈ stPendingError.frames, f.elevel ≤ frPendingError.elevel) :=
  ⟨by decide, by decide,
    C4_amended cfgBase stPendingError PGERROR frPendingError
      (by decide) (by decide) (by decide)⟩

/-- C6 counterexample: the default status code at exactly WARNING is the
warning-class code, not the success code, so the claim that every
severity at or below WARNING defaults to a success code is false. -/
theorem C6_counterexample :
    (errstartPushed cfgBase st0 WARNING).map Frame.sqlerrcode = some ERRCODE_WARNING ∧
    ERRCODE_WARNING ≠ ERRCODE_SUCCESSFUL_COMPLETION := by
  refine ⟨by decide, by decide⟩

/-- C6 amended: for every newly opened reporting cycle the default
status code is selected by the recorded severity in three bands: the
generic wrong-state code at or above ERROR, the warning-class code at
exactly WARNING, and the success code strictly below WARNING; the field
is always populated with one of these codes when the frame is pushed. -/
theorem C6_amended (cfg : ElogCfg) (st : LogState) (lv : Int) (fr : Frame)
    (h : errstartPushed cfg st lv = some fr) :
    (PGERROR ≤ fr.elevel → fr.sqlerrcode = ERRCODE_WRONG_OBJECT_TYPE) ∧
    (fr.elevel = WARNING → fr.sqlerrcode = ERRCODE_WARNING) ∧
    (fr.elevel < WARNING → fr.sqlerrcode = ERRCODE_SUCCESSFUL_COMPLETION) := by
  rw [errstartPushed_eq] at h
  cases hp : errstartPromote cfg st lv with
  | none => rw [hp] at h; cases h
  | some e =>
    rw [hp] at h
    have hfr := afterPromotionPushed_frame cfg st e fr h
    have hcode : fr.sqlerrcode = defaultSqlErrCode fr.elevel := by
      rw [hfr]; rfl
    rw [hcode]
    unfold defaultSqlErrCode
    refine ⟨fun hge => ?_, fun hw => ?_, fun hlt => ?_⟩
    · rw [if_pos hge]
    · rw [if_neg (by rw [hw]; decide), if_pos hw]
    · have hnge : ¬(fr.elevel ≥ PGERROR) := by
        intro hc
        have : WARNING < PGERROR := by decide
        omega
      rw [if_neg hnge, if_neg (by omega)]

theorem C6_witness :
    (PGERROR ≤ frNotice.elevel → frNotice.sqlerrcode = ERRCODE_WRONG_OBJECT_TYPE) ∧
    (frNotice.elevel = WARNING → frNotice.sqlerrcode = ERRCODE_WARNING) ∧
    (frNotice.elevel < WARNING → frNotice.sqlerrcode = ERRCODE_SUCCESSFUL_COMPLETION) :=
  C6_amended cfgBase st0 NOTICE frNotice (by decide)

/-- C7 counterexample: INFO is below both configured minimums (WARNING
for the server log, NOTICE for the client) and below ERROR, yet errstart
does not return false: the client-routing rule forces INFO to a remote
client regardless of the configured minimum, so a frame is allocated and
begin_report returns true. -/
theorem C7_counterexample :
    errstartModel cfgBase st0 INFO ≠ ErrstartOutcome.ret false st0 ∧
    (errstartPushed cfgBase st0 INFO).isSome = true ∧
    INFO < cfgBase.log_min_messages ∧
    INFO < cfgBase.client_min_messages ∧
    INFO < PGERROR := by
  refine ⟨by decide, by decide, by decide, by decide, by decide⟩

/-- C7 amended: for every severity strictly below both configured
minimums and below ERROR, begin_report returns false without allocating
a frame (the state is returned unchanged), provided the severity is not
one of the forced-output special cases: LOG and COMMERROR (which sort
specially for the server log), INFO and the VERBOSE pseudo-level (always
client-visible on a remote connection), and NOTICE in a stream
thread. -/
theorem C7_amended (cfg : ElogCfg) (st : LogState) (lv : Int)
    (h1 : lv < cfg.log_min_messages) (h2 : lv < cfg.client_min_messages)
    (h3 : lv < PGERROR)
    (h4 : lv ≠ LOG) (h5 : lv ≠ COMMERROR) (h6 : lv ≠ INFO) (h7 : lv ≠ VERBOSEMESSAGE)
    (h8 : ¬(cfg.streamThread = true ∧ lv = NOTICE)) :
    errstartModel cfg st lv = ErrstartOutcome.ret false st := by
  have hpro : errstartPromote cfg st lv = some lv := by
    unfold errstartPromote
    rw [if_neg (not_le.mpr h3)]
  have he2 : (errstartRouting cfg lv).e2 = lv := by
    rw [routing_e2, if_neg]
    rintro ⟨hv, -⟩
    exact h7 hv
  have hos : (errstartRouting cfg lv).os = false := by
    rw [routing_os]
    unfold serverLogRoute is_log_level_output
    by_cases hpm : cfg.IsPostmasterEnvironment
    · rw [if_pos hpm, if_neg (by rintro (h | h); exacts [h4 h, h5 h]),
        if_neg (not_le.mpr h1)]
    · rw [if_neg hpm]
      exact decide_eq_false (not_le.mpr h1)
  have hoc : (errstartRouting cfg lv).oc = false := by
    rw [routing_oc]
    rw [show (if lv = VERBOSEMESSAGE ∧ cfg.isPgxcCoordinator = true then INFO else lv) = lv from
      if_neg (by rintro ⟨hv, -⟩; exact h7 hv)]
    by_cases hW : cfg.amWLMProcess ∧ lv ≥ PGERROR
    · rw [if_pos hW]
    · rw [if_neg hW, if_neg h7, if_neg h8]
      by_cases hR : cfg.whereToSendOutput = Dest.remote ∧ lv ≠ COMMERROR
      · rw [if_pos hR]
        by_cases hAu : cfg.ClientAuthInProgress
        · rw [if_pos hAu]
          exact decide_eq_false (not_le.mpr h3)
        · rw [if_neg hAu, decide_eq_false (not_le.mpr h2), decide_eq_false h6]
          rfl
      · rw [if_neg hR]
  unfold errstartModel
  rw [hpro]
  show errstartAfterPromotion cfg st lv = ErrstartOutcome.ret false st
  unfold errstartAfterPromotion
  rw [if_pos]
  refine ⟨?_, ?_, ?_⟩
  · rw [he2]; exact h3
  · rw [hos]; exact Bool.false_ne_true
  · rw [hoc]; exact Bool.false_ne_true

theorem C7_witness :
    errstartModel cfgBase st0 DEBUG2 = ErrstartOutcome.ret false st0 :=
  C7_amended cfgBase st0 DEBUG2 (by decide) (by decide) (by decide) (by decide)
    (by decide) (by decide) (by decide) (by decide)

/-- C1: raising exactly ERROR with no recovery point registered yields a
record at FATAL with both routing flags computed for FATAL, not for the
requested ERROR.  At open time the promotion happens before routing, so
errstart behaves identically to a FATAL request; and when the missing
recovery point is discovered at re-throw time, pg_re_throw promotes the
ERROR record to FATAL in place, re-derives output_to_server from the
server-log minimum at FATAL, forces output_to_client for a remote
client, and emits the record instead of jumping. -/
theorem C1_error_no_recovery_point_is_fatal (cfg : ElogCfg) (st : LogState) (ed : Frame)
    (hx : cfg.hasExceptionStack = false)
    (hc : cfg.CritSectionCount = 0)
    (he : cfg.ExitOnAnyError = false)
    (ht : cfg.test_err_type < 3)
    (hf : ∀ f ∈ st.frames, f.elevel ≤ FATAL)
    (_hed : ed.elevel = PGERROR) :
    errstartModel cfg st PGERROR = errstartModel cfg st FATAL ∧
    ∃ e, pgReThrowEmitted cfg ed = some e ∧
      e.elevel = FATAL ∧
      e.output_to_server = serverLogRoute cfg FATAL ∧
      (cfg.whereToSendOutput = Dest.remote → e.output_to_client = true) := by
  constructor
  · have hpE : errstartPromote cfg st PGERROR = some FATAL := by
      unfold errstartPromote
      rw [if_pos (le_refl PGERROR)]
      rw [hc]
      rw [if_neg (by decide : ¬((0 : Nat) > 0))]
      rw [if_neg (by rintro ⟨-, h3⟩; omega)]
      rw [if_pos rfl, hx, he]
      rw [if_pos (Or.inl (by decide))]
      rw [if_neg (by rintro ⟨hfalse, -⟩; cases hfalse)]
      show some (st.frames.foldl (fun m f => max m f.elevel) FATAL) = some FATAL
      rw [foldl_max_elevel_of_le st.frames FATAL hf]
    have hpF : errstartPromote cfg st FATAL = some FATAL := by
      unfold errstartPromote
      rw [if_pos (by decide : FATAL ≥ PGERROR)]
      rw [hc]
      rw [if_neg (by decide : ¬((0 : Nat) > 0))]
      rw [if_neg (by rintro ⟨hP, -⟩; exact absurd hP (by decide))]
      rw [if_neg (by decide : ¬(FATAL = PGERROR))]
      show some (st.frames.foldl (fun m f => max m f.elevel) FATAL) = some FATAL
      rw [foldl_max_elevel_of_le st.frames FATAL hf]
    unfold errstartModel
    rw [hpE, hpF]
  · have hEm : pgReThrowEmitted cfg ed =
        some { ed with
               elevel := FATAL
               output_to_server := serverLogRoute cfg FATAL
               output_to_client :=
                 if cfg.whereToSendOutput = Dest.remote then true
                 else ed.output_to_client } := by
      unfold pgReThrowEmitted pgReThrowModel
      rw [hx]
      rw [if_neg Bool.false_ne_true]
    refine ⟨_, hEm, rfl, rfl, fun hr => ?_⟩
    simp [hr]

theorem C1_witness :
    errstartModel cfgC1 st0 PGERROR = errstartModel cfgC1 st0 FATAL ∧
    ∃ e, pgReThrowEmitted cfgC1 edC1 = some e ∧
      e.elevel = FATAL ∧
      e.output_to_server = serverLogRoute cfgC1 FATAL ∧
      (cfgC1.whereToSendOutput = Dest.remote → e.output_to_client = true) :=
  C1_error_no_recovery_point_is_fatal cfgC1 st0 edC1 rfl rfl rfl (by decide)
    (by intro f hf; cases hf) rfl

set_option maxRecDepth 100000 in
/-- C3 counterexample: the argument of the allow-listed sensitive
function dblink_connect is a recognized sensitive span, but the
right-parenthesis masking path overwrites it in place with a run of mask
characters of the span's own length (five here), not of the fixed mask
width eight: the masked text has the same length as the input and
exactly five mask characters, so the claim that every recognized
sensitive span is replaced by exactly the fixed mask width is false. -/
theorem C3_counterexample :
    maskPasswordRun noChildTokenizer 0 8 exampleDblink exampleDblinkToks =
      some exampleDblinkMasked ∧
    exampleDblinkMasked.length = exampleDblink.length ∧
    exampleDblinkMasked.data.count '*' = 5 ∧
    (exampleDblinkMasked.data.drop 23).take 5 = List.replicate 5 '*' ∧
    (5 : Nat) ≠ 8 := by
  refine ⟨by decide, by decide, by decide, by decide, by decide⟩

set_option maxRecDepth 100000 in
/-- C3 amended: spans masked through the password flush path are
replaced by a run of mask characters of exactly the fixed mask width,
independent of the original span's length — the splice puts exactly
maskLen mask characters at the span's (offset-corrected) start, and the
resulting text's length changes by the width delta — and the
specification's example holds: the CREATE USER statement with mask width
eight masks the nine-character literal to exactly eight mask
characters.  (Spans recognized on the sensitive-function-argument paths
are instead overwritten in place, preserving their own length.) -/
theorem C3_amended (ms : List Char) (start len maskLen : Nat)
    (h1 : start ≤ ms.length) :
    ((maskSplice ms start len maskLen).drop start).take maskLen =
      List.replicate maskLen '*' ∧
    (start + len ≤ ms.length →
      (maskSplice ms start len maskLen).length = ms.length - len + maskLen) ∧
    maskPasswordRun noChildTokenizer 0 8 exampleCreateUser exampleCreateUserToks =
      some exampleCreateUserMasked := by
  refine ⟨?_, ?_, by decide⟩
  · unfold maskSplice
    rw [List.append_assoc]
    set l1 := ms.take start with hl1
    have hlen : l1.length = start := by
      rw [hl1, List.length_take]
      omega
    rw [List.drop_left' hlen]
    exact List.take_left' (List.length_replicate _ _)
  · intro h2
    unfold maskSplice
    rw [List.length_append, List.length_append, List.length_take,
      List.length_replicate, List.length_drop]
    omega

set_option maxRecDepth 100000 in
theorem C3_witness :
    (((maskSplice exampleCreateUser.data 28 9 8).drop 28).take 8 =
      List.replicate 8 '*') ∧
    (28 + 9 ≤ exampleCreateUser.data.length →
      (maskSplice exampleCreateUser.data 28 9 8).length =
        exampleCreateUser.data.length - 9 + 8) ∧
    maskPasswordRun noChildTokenizer 0 8 exampleCreateUser exampleCreateUserToks =
      some exampleCreateUserMasked :=
  C3_amended exampleCreateUser.data 28 9 8 (by decide)

set_option maxRecDepth 400000 in
/-- C9: redaction is not idempotent on this input.  The first scan of
the seventeen-identifier SET ROLE statement garbles the text (each span
is one character, shorter than the mask width eight, and the truncation
accumulator records only shrinkage, so every splice after the first
lands left of its true target), piling mask characters at the head and
leaving the last sixteen identifiers unmasked; scanning the resulting
text again finds those sixteen identifiers, fills the candidate buffer
and masks them, producing a longer, different text.  The second pass
neither reports nothing to mask nor reproduces the identical text. -/
theorem C9_second_scan_changes_masked_text :
    maskPasswordRun noChildTokenizer 0 8 setRoleStmt setRoleToks = some setRoleMasked1 ∧
    (maskPasswordRun noChildTokenizer 0 8 setRoleMasked1 setRoleMasked1Toks).isSome = true ∧
    maskPasswordRun noChildTokenizer 0 8 setRoleMasked1 setRoleMasked1Toks ≠
      some setRoleMasked1 := by
  refine ⟨by decide, by decide, by decide⟩
